import Mathlib

/-
  Verification development for the BusStopAlert repository (src/script.js).

  Shallow embedding conventions:
  - The pure numeric-to-string formatting helpers (formatDistance,
    calculateWalkingTime) consume exact decimal inputs, so they are embedded
    over the rationals; JavaScript Math.round (round half toward positive
    infinity) and the rounding of Number.prototype.toFixed on the
    non-negative range are both embedded as jsRound q = floor (q + 1/2).
  - The haversine distance (calculateDistance) and everything built on it is
    embedded over the real numbers, with Math.atan2 given its piecewise
    definition.
  - The mutable session globals (userLocation, selectedStation, isTracking,
    hasAlerted, trackingInterval, the pending geolocation callback) are an
    AppState record; DOM/audio side effects are recorded in an append-only
    effect log. The host event loop is a step relation on events: a timer
    tick issuing a geolocation request, that request resolving or rejecting,
    and the stop-tracking button.
-/

/-! ## Formatting helpers (src/script.js lines 344-367), embedded over ℚ -/

/-- JavaScript Math.round: round to the nearest integer, halves toward
positive infinity. Also the rounding used by toFixed(2) on non-negative
inputs, where ties pick the larger candidate. -/
def jsRound (q : ℚ) : ℤ := ⌊q + 1 / 2⌋

/-- Left-pad a two-digit fraction with a zero, as decimal printing does. -/
def pad2 (n : ℕ) : String := if n < 10 then "0" ++ toString n else toString n

/-- Number.prototype.toFixed applied with 2 digits, on the non-negative
range reached by formatDistance (the kilometre branch has km >= 1). -/
def toFixed2 (q : ℚ) : String :=
  let n := (jsRound (q * 100)).toNat
  toString (n / 100) ++ "." ++ pad2 (n % 100)

/-- Embedding of formatDistance (src/script.js lines 344-349). -/
def formatDistance (km : ℚ) : String :=
  if km < 1 then toString (jsRound (km * 1000)) ++ " מטר"
  else toFixed2 km ++ " ק\"מ"

/-- Embedding of calculateWalkingTime (src/script.js lines 352-367).
Math.floor of minutes/60 on the branch where minutes >= 60 agrees with
integer euclidean division by the positive constant 60. -/
def calculateWalkingTime (km : ℚ) : String :=
  let hours := km / 5
  let minutes := jsRound (hours * 60)
  if minutes < 1 then "פחות מדקה"
  else if minutes = 1 then "כדקה"
  else if minutes < 60 then "כ-" ++ toString minutes ++ " דקות הליכה"
  else
    let hrs := minutes / 60
    let mins := minutes % 60
    "כ-" ++ toString hrs ++ " שעות ו-" ++ toString mins ++ " דקות הליכה"

/-! ## Haversine distance (src/script.js lines 322-341), embedded over ℝ -/

/-- Embedding of toRad (src/script.js lines 339-341). -/
noncomputable def toRad (degrees : ℝ) : ℝ := degrees * (Real.pi / 180)

/-- JavaScript Math.atan2, by its piecewise definition on the signs of the
arguments. -/
noncomputable def atan2 (y x : ℝ) : ℝ :=
  if 0 < x then Real.arctan (y / x)
  else if x < 0 then
    (if 0 ≤ y then Real.arctan (y / x) + Real.pi
     else Real.arctan (y / x) - Real.pi)
  else if 0 < y then Real.pi / 2
  else if y < 0 then -(Real.pi / 2)
  else 0

/-- Embedding of calculateDistance (src/script.js lines 322-336): the
haversine formula with Earth radius 6371 km. -/
noncomputable def calculateDistance (lat1 lon1 lat2 lon2 : ℝ) : ℝ :=
  let R : ℝ := 6371
  let dLat := toRad (lat2 - lat1)
  let dLon := toRad (lon2 - lon1)
  let a :=
    Real.sin (dLat / 2) * Real.sin (dLat / 2) +
      Real.cos (toRad lat1) * Real.cos (toRad lat2) *
        Real.sin (dLon / 2) * Real.sin (dLon / 2)
  let c := 2 * atan2 (Real.sqrt a) (Real.sqrt (1 - a))
  R * c

/-! ## Session state and the alert state machine (src/script.js lines 1-15,
401-440, 509-587) -/

/-- The alert radius constant ALERT_DISTANCE = 5 km (src/script.js line 14). -/
noncomputable def ALERT_DISTANCE : ℝ := 5

/-- A geolocation fix as stored by getUserLocation (src/script.js
lines 69-73). -/
structure GeoPoint where
  lat : ℝ
  lng : ℝ
  accuracy : ℝ

/-- A selected station as built by selectStation (src/script.js
lines 266-271). -/
structure Station where
  name : String
  address : String
  lat : ℝ
  lng : ℝ

/-- Observable side effects of the session logic: a status message with its
severity, the alert sound, the browser notification, the distance display
refresh (distance text, walking time, route line), and the user marker
refresh done by getUserLocation on success. -/
inductive Effect where
  | statusMsg (text severity : String)
  | playSound
  | browserNotification
  | displayUpdate (distance : ℝ)
  | userMarkerUpdate

/-- The mutable globals of src/script.js lines 1-15 that the session logic
reads or writes: userLocation, selectedStation, isTracking, hasAlerted,
whether trackingInterval is non-null, whether a tick has a getUserLocation
request still pending, and the log of emitted side effects. -/
structure AppState where
  userLocation : Option GeoPoint
  selectedStation : Option Station
  isTracking : Bool
  hasAlerted : Bool
  timerActive : Bool
  inFlight : Bool
  log : List Effect

/-- The initial values of the globals on page load (src/script.js
lines 7-11): no location, no station, not tracking, not alerted, no timer. -/
def initState : AppState :=
  { userLocation := none, selectedStation := none, isTracking := false,
    hasAlerted := false, timerActive := false, inFlight := false, log := [] }

/-- Embedding of updateDistanceDisplay (src/script.js lines 401-440): refresh
the distance display, then if the distance is within ALERT_DISTANCE and
hasAlerted is still false, play the sound, latch hasAlerted, show the warning
status and the browser notification; if the distance exceeds ALERT_DISTANCE,
reset the hasAlerted latch. -/
noncomputable def updateDistanceDisplay (s : AppState) (distance : ℝ) : AppState :=
  let s1 := { s with log := s.log ++ [Effect.displayUpdate distance] }
  if distance ≤ ALERT_DISTANCE then
    if s1.hasAlerted then s1
    else
      { s1 with hasAlerted := true,
                log := s1.log ++
                  [Effect.playSound,
                   Effect.statusMsg "⚠️ הגעת לאזור ההתראה! קרוב לתחנה!" "warning",
                   Effect.browserNotification] }
  else { s1 with hasAlerted := false }

/-- Recognize the audible alert side effect in the log. -/
def isAlertSoundEffect : Effect → Bool
  | Effect.playSound => true
  | _ => false

/-- How many alert side effects a log holds. -/
def alertCount (log : List Effect) : ℕ := (log.filter isAlertSoundEffect).length

/-- Feed a sequence of computed distances through updateDistanceDisplay, as
successive poll ticks do. -/
noncomputable def feedDistances (s : AppState) (ds : List ℝ) : AppState :=
  ds.foldl updateDistanceDisplay s

/-- Count of zone entries after a tick whose distance was prev, following
the words of the spec: an entry is a tick whose distance is inside the alert
radius while the previous tick was outside it. -/
noncomputable def specZoneEntriesAfter (prev : ℝ) : List ℝ → ℕ
  | [] => 0
  | d :: ds =>
    (if d ≤ ALERT_DISTANCE ∧ ALERT_DISTANCE < prev then 1 else 0) +
      specZoneEntriesAfter d ds

/-- Count of zone entries of a distance sequence, following the words of the
spec: the first tick counts when it is already inside the alert radius, and
each later tick counts when it crosses the radius inward. -/
noncomputable def specZoneEntries : List ℝ → ℕ
  | [] => 0
  | d :: ds => (if d ≤ ALERT_DISTANCE then 1 else 0) + specZoneEntriesAfter d ds

/-! ## The polling loop as an event system (src/script.js lines 549-587) -/

/-- Host event-loop events that drive a session: the interval timer firing a
tick (which issues a getUserLocation request), that request resolving with a
position or rejecting, and the stop-tracking button. -/
inductive Event where
  | startTick
  | resolveSuccess (pos : GeoPoint)
  | resolveFailure
  | stopTracking

/-- One event of the host event loop.

- startTick (src/script.js lines 549-551): the interval callback runs only
  while the timer is set; it awaits getUserLocation, leaving a request in
  flight.
- resolveSuccess (src/script.js lines 67-77 and 551-560): the success
  callback of getUserLocation stores userLocation and refreshes the user
  marker, then the tick continues: it computes the distance to the selected
  station and calls updateDistanceDisplay. Note there is no isTracking check
  after the await, so this runs even when the session was stopped while the
  request was in flight. A tick only exists when a station was selected; if
  none is selected the callback would fault and be swallowed by its catch,
  changing nothing further.
- resolveFailure (src/script.js lines 561-563): the catch only logs; no
  session state changes.
- stopTracking (src/script.js lines 574-587): clear the interval, reset
  isTracking and hasAlerted, show the stopped status. -/
noncomputable def step (s : AppState) : Event → AppState
  | Event.startTick =>
    if s.timerActive then { s with inFlight := true } else s
  | Event.resolveSuccess pos =>
    if s.inFlight then
      let s1 := { s with inFlight := false, userLocation := some pos,
                         log := s.log ++ [Effect.userMarkerUpdate] }
      match s1.selectedStation with
      | some st =>
        updateDistanceDisplay s1 (calculateDistance pos.lat pos.lng st.lat st.lng)
      | none => s1
    else s
  | Event.resolveFailure =>
    if s.inFlight then { s with inFlight := false } else s
  | Event.stopTracking =>
    { s with timerActive := false, isTracking := false, hasAlerted := false,
             log := s.log ++ [Effect.statusMsg "מעקב הופסק" "info"] }

/-- Run a sequence of host events. -/
noncomputable def runEvents (s : AppState) (es : List Event) : AppState :=
  es.foldl step s

/-- n consecutive poll ticks whose geolocation request rejects. -/
def failTicks : ℕ → List Event
  | 0 => []
  | n + 1 => Event.startTick :: Event.resolveFailure :: failTicks n

/-- Embedding of startTracking (src/script.js lines 510-571) up to the point
where the interval is installed, with the initial getUserLocation outcome as
an input: without a selected station it only shows an error status; with one
it arms the audio, then on geolocation failure shows the error message, and
on success stores the position, sets isTracking, runs the initial distance
display, installs the interval and shows the started status. -/
noncomputable def startTracking (s : AppState) (locResult : Except String GeoPoint) :
    AppState :=
  match s.selectedStation with
  | none => { s with log := s.log ++ [Effect.statusMsg "בחר תחנה תחילה" "error"] }
  | some st =>
    match locResult with
    | Except.error msg => { s with log := s.log ++ [Effect.statusMsg msg "error"] }
    | Except.ok pos =>
      let s1 := { s with userLocation := some pos,
                         log := s.log ++ [Effect.userMarkerUpdate] }
      let s2 := { s1 with isTracking := true }
      let s3 := updateDistanceDisplay s2
        (calculateDistance pos.lat pos.lng st.lat st.lng)
      let s4 := { s3 with timerActive := true }
      { s4 with log := s4.log ++ [Effect.statusMsg "מעקב החל בהצלחה!" "success"] }

/-- A concrete selected station used by closed runs. -/
noncomputable def busStation : Station :=
  { name := "תחנה מרכזית", address := "תחנה מרכזית, תל אביב",
    lat := 32.0853, lng := 34.7818 }

/-- A concrete state of an active session: station selected, tracking on,
timer installed, latch clear, no request in flight. -/
noncomputable def trackingState : AppState :=
  { userLocation := some { lat := 32.0853, lng := 34.7818, accuracy := 10 },
    selectedStation := some busStation, isTracking := true,
    hasAlerted := false, timerActive := true, inFlight := false, log := [] }

/-! ## Station search (src/script.js lines 127-222) -/

/-- A raw Nominatim geocoding result as read by searchBusStation: the
display name, the type and class metadata fields (class is a reserved word
here, so the field is named cls), and the parsed coordinates. -/
structure SearchResult where
  display_name : String
  type : String
  cls : String
  lat : ℝ
  lon : ℝ

/-- JavaScript String.prototype.toLowerCase on the ASCII range used by the
search filter. -/
def jsToLower (s : String) : String := s.map Char.toLower

/-- Infix test on character lists, for String.prototype.includes. -/
def infixOfList (needle : List Char) : List Char → Bool
  | [] => needle.isEmpty
  | c :: rest => needle.isPrefixOf (c :: rest) || infixOfList needle rest

/-- JavaScript String.prototype.includes. -/
def jsIncludes (s sub : String) : Bool := infixOfList sub.toList s.toList

/-- The transit filter of searchBusStation (src/script.js lines 184-200). -/
def isTransitResult (result : SearchResult) : Bool :=
  let name := jsToLower result.display_name
  let ty := jsToLower result.type
  let category := jsToLower result.cls
  jsIncludes ty "bus_stop" || jsIncludes ty "station" ||
    jsIncludes category "highway" || jsIncludes category "public_transport" ||
    jsIncludes name "תחנ" || jsIncludes name "bus" || jsIncludes name "station"

open Classical in
/-- The de-duplication loop of searchBusStation (src/script.js
lines 165-181): keep a result only when no already-kept result lies within
0.05 km of it by calculateDistance. -/
noncomputable def dedupGo (unique : List SearchResult) :
    List SearchResult → List SearchResult
  | [] => unique
  | r :: rest =>
    if ∃ e ∈ unique, calculateDistance r.lat r.lon e.lat e.lon < 0.05 then
      dedupGo unique rest
    else dedupGo (unique ++ [r]) rest

/-- De-duplicate raw results, starting from the empty kept list. -/
noncomputable def dedupResults (rs : List SearchResult) : List SearchResult :=
  dedupGo [] rs

/-- The accumulation of the per-subquery fetches (src/script.js
lines 139-163): each fetch either contributes its parsed results or, on a
transport error or a non-ok response, contributes nothing. -/
def collectResults : List (Option (List SearchResult)) → List SearchResult
  | [] => []
  | none :: rest => collectResults rest
  | some rs :: rest => rs ++ collectResults rest

/-- Embedding of searchBusStation (src/script.js lines 127-222) with the
per-subquery fetch outcomes as input: concatenate the successful fetches,
de-duplicate, filter for transit results capped at ten; fall back to the
unfiltered unique results when the filter removed everything, return the
empty list with a warning status when nothing at all was found. -/
noncomputable def searchBusStation (fetches : List (Option (List SearchResult))) :
    List SearchResult × List Effect :=
  let allResults := collectResults fetches
  let uniqueResults := dedupResults allResults
  let filteredResults := (uniqueResults.filter isTransitResult).take 10
  if filteredResults.isEmpty && !uniqueResults.isEmpty then
    (uniqueResults.take 10,
     [Effect.statusMsg "מחפש תחנות..." "info",
      Effect.statusMsg
        ("נמצאו " ++ toString (min uniqueResults.length 10) ++ " תוצאות") "success"])
  else if filteredResults.isEmpty then
    ([],
     [Effect.statusMsg "מחפש תחנות..." "info",
      Effect.statusMsg "לא נמצאו תחנות. נסה שם אחר או הוסף \"תחנה\" לחיפוש"
        "warning"])
  else
    (filteredResults,
     [Effect.statusMsg "מחפש תחנות..." "info",
      Effect.statusMsg
        ("נמצאו " ++ toString filteredResults.length ++ " תחנות") "success"])

/-- A concrete raw search result. -/
noncomputable def sampleResult : SearchResult :=
  { display_name := "Central Station, Tel Aviv", type := "bus_stop",
    cls := "highway", lat := 32, lon := 34 }

/-! ## Helper lemmas about the haversine distance -/

/-- The haversine angle argument is unchanged when the two points swap. -/
lemma hav_a_comm (lat1 lon1 lat2 lon2 : ℝ) :
    Real.sin (toRad (lat2 - lat1) / 2) * Real.sin (toRad (lat2 - lat1) / 2) +
        Real.cos (toRad lat1) * Real.cos (toRad lat2) *
          Real.sin (toRad (lon2 - lon1) / 2) * Real.sin (toRad (lon2 - lon1) / 2) =
      Real.sin (toRad (lat1 - lat2) / 2) * Real.sin (toRad (lat1 - lat2) / 2) +
        Real.cos (toRad lat2) * Real.cos (toRad lat1) *
          Real.sin (toRad (lon1 - lon2) / 2) * Real.sin (toRad (lon1 - lon2) / 2) := by
  have h1 : toRad (lat2 - lat1) = -(toRad (lat1 - lat2)) := by unfold toRad; ring
  have h2 : toRad (lon2 - lon1) = -(toRad (lon1 - lon2)) := by unfold toRad; ring
  rw [h1, h2]
  simp only [neg_div, Real.sin_neg]
  ring

/-- calculateDistance is symmetric in its two points. -/
lemma calculateDistance_comm (lat1 lon1 lat2 lon2 : ℝ) :
    calculateDistance lat1 lon1 lat2 lon2 = calculateDistance lat2 lon2 lat1 lon1 := by
  simp only [calculateDistance]
  rw [hav_a_comm lat1 lon1 lat2 lon2]

/-- calculateDistance of a point with itself is zero. -/
@[simp] lemma calculateDistance_self (lat lon : ℝ) :
    calculateDistance lat lon lat lon = 0 := by
  simp [calculateDistance, toRad, atan2, Real.arctan_zero]

/-- C3: the great-circle distance function (haversine, Earth radius 6371 km)
is symmetric in its two coordinate points and returns zero when the two
points coincide. -/
theorem calculateDistance_symm_and_self_zero :
    (∀ lat1 lon1 lat2 lon2 : ℝ,
        calculateDistance lat1 lon1 lat2 lon2 =
          calculateDistance lat2 lon2 lat1 lon1) ∧
      ∀ lat lon : ℝ, calculateDistance lat lon lat lon = 0 :=
  ⟨calculateDistance_comm, calculateDistance_self⟩

/-! ## Formatting claims -/

/-- A fraction already reduced mod 100 is always padded to exactly two
digits. -/
lemma pad2_length_two : ∀ m : ℕ, m < 100 → (pad2 m).length = 2 := by decide

/-- C6: formatDistance renders a non-negative value strictly below one
kilometre as the rounded whole number of metres, and a value of one
kilometre or more as kilometres with exactly two decimal digits; in
particular 0.5 km renders as 500 metres and 2.345 km renders in the
two-decimal kilometre form. -/
theorem formatDistance_buckets :
    (∀ km : ℚ, 0 ≤ km →
        (km < 1 → formatDistance km = toString (jsRound (km * 1000)) ++ " מטר") ∧
        (1 ≤ km →
          formatDistance km =
              toString ((jsRound (km * 100)).toNat / 100) ++ "." ++
                pad2 ((jsRound (km * 100)).toNat % 100) ++ " ק\"מ" ∧
            (pad2 ((jsRound (km * 100)).toNat % 100)).length = 2)) ∧
      formatDistance (1 / 2) = "500 מטר" ∧
      formatDistance (2345 / 1000) = "2.35 ק\"מ" := by
  refine ⟨fun km _h0 => ⟨fun hlt => ?_, fun hge => ⟨?_, ?_⟩⟩, ?_, ?_⟩
  · rw [formatDistance, if_pos hlt]
  · rw [formatDistance, if_neg (not_lt.mpr hge)]
    rfl
  · exact pad2_length_two _ (Nat.mod_lt _ (by norm_num))
  · have h1 : (1 / 2 : ℚ) < 1 := by norm_num
    have h2 : jsRound ((1 / 2 : ℚ) * 1000) = 500 := by rw [jsRound]; norm_num
    rw [formatDistance, if_pos h1, h2]
    decide
  · have h1 : ¬ (2345 / 1000 : ℚ) < 1 := by norm_num
    have h2 : jsRound ((2345 / 1000 : ℚ) * 100) = 235 := by rw [jsRound]; norm_num
    rw [formatDistance, if_neg h1]
    simp only [toFixed2, h2]
    decide

/-- C6 witness: the sub-kilometre bucket, applied at the concrete input 0 km. -/
theorem formatDistance_buckets_witness :
    formatDistance 0 = toString (jsRound ((0 : ℚ) * 1000)) ++ " מטר" :=
  (formatDistance_buckets.1 0 (le_refl 0)).1 (zero_lt_one : (0 : ℚ) < 1)

/-- C7: the estimated walking time is derived from a 5 km/h walking speed,
minutes = round (km / 5 * 60), and is bucketed into the four forms: below a
minute, exactly one minute, N minutes below an hour, and hours with
minutes from an hour up. -/
theorem calculateWalkingTime_buckets :
    ∀ km : ℚ, 0 ≤ km →
      (jsRound (km / 5 * 60) < 1 → calculateWalkingTime km = "פחות מדקה") ∧
      (jsRound (km / 5 * 60) = 1 → calculateWalkingTime km = "כדקה") ∧
      (1 < jsRound (km / 5 * 60) → jsRound (km / 5 * 60) < 60 →
        calculateWalkingTime km =
          "כ-" ++ toString (jsRound (km / 5 * 60)) ++ " דקות הליכה") ∧
      (60 ≤ jsRound (km / 5 * 60) →
        calculateWalkingTime km =
          "כ-" ++ toString (jsRound (km / 5 * 60) / 60) ++ " שעות ו-" ++
            toString (jsRound (km / 5 * 60) % 60) ++ " דקות הליכה") := by
  intro km _h0
  refine ⟨fun h1 => ?_, fun h1 => ?_, fun h1 h2 => ?_, fun h1 => ?_⟩
  · simp only [calculateWalkingTime]
    rw [if_pos h1]
  · simp only [calculateWalkingTime]
    rw [if_neg (by omega), if_pos h1]
  · simp only [calculateWalkingTime]
    rw [if_neg (by omega), if_neg (by omega), if_pos h2]
  · simp only [calculateWalkingTime]
    rw [if_neg (by omega), if_neg (by omega), if_neg (by omega)]

/-- C7 witness: the bucketing, applied at the concrete input 0 km. -/
theorem calculateWalkingTime_buckets_witness :
    0 ≤ (0 : ℚ) ∧
      ((jsRound ((0 : ℚ) / 5 * 60) < 1 → calculateWalkingTime 0 = "פחות מדקה") ∧
        (jsRound ((0 : ℚ) / 5 * 60) = 1 → calculateWalkingTime 0 = "כדקה") ∧
        (1 < jsRound ((0 : ℚ) / 5 * 60) → jsRound ((0 : ℚ) / 5 * 60) < 60 →
          calculateWalkingTime 0 =
            "כ-" ++ toString (jsRound ((0 : ℚ) / 5 * 60)) ++ " דקות הליכה") ∧
        (60 ≤ jsRound ((0 : ℚ) / 5 * 60) →
          calculateWalkingTime 0 =
            "כ-" ++ toString (jsRound ((0 : ℚ) / 5 * 60) / 60) ++ " שעות ו-" ++
              toString (jsRound ((0 : ℚ) / 5 * 60) % 60) ++ " דקות הליכה")) :=
  ⟨le_refl 0, calculateWalkingTime_buckets 0 (le_refl 0)⟩

/-- C10: on the sub-kilometre inputs from 0.9995 up to (excluding) 1, the
metre rounding happens inside the sub-kilometre branch, so formatDistance
renders the 1000-metre form instead of switching to the kilometre form. -/
theorem formatDistance_near_one_km_meters :
    ∀ km : ℚ, 9995 / 10000 ≤ km → km < 1 → formatDistance km = "1000 מטר" := by
  intro km h1 h2
  have h3 : jsRound (km * 1000) = 1000 := by
    rw [jsRound, Int.floor_eq_iff]
    refine ⟨by push_cast; linarith, by push_cast; linarith⟩
  rw [formatDistance, if_pos h2, h3]
  rfl

/-- The concrete input 0.9996 km lies above 0.9995 km. -/
lemma c10_lower : (9995 / 10000 : ℚ) ≤ 9996 / 10000 := by norm_num

/-- The concrete input 0.9996 km lies below one kilometre. -/
lemma c10_upper : (9996 / 10000 : ℚ) < 1 := by norm_num

/-- C10 witness: the concrete input 0.9996 km renders as 1000 metres. -/
theorem formatDistance_near_one_km_meters_witness :
    formatDistance (9996 / 10000) = "1000 מטר" :=
  formatDistance_near_one_km_meters (9996 / 10000) c10_lower c10_upper

/-! ## The alert latch (claim C1) -/

/-- updateDistanceDisplay leaves hasAlerted latched exactly when the fed
distance is inside the alert radius. -/
lemma updateDistanceDisplay_hasAlerted (s : AppState) (d : ℝ) :
    ((updateDistanceDisplay s d).hasAlerted = true ↔ d ≤ ALERT_DISTANCE) := by
  obtain ⟨u, st, it, ha, ta, inf, lg⟩ := s
  by_cases h : d ≤ ALERT_DISTANCE
  · cases ha <;> simp [updateDistanceDisplay, h]
  · simp [updateDistanceDisplay, h]

/-- One updateDistanceDisplay call adds an alert sound exactly when the
distance is inside the alert radius while the latch is clear. -/
lemma updateDistanceDisplay_alertCount (s : AppState) (d : ℝ) :
    alertCount (updateDistanceDisplay s d).log =
      alertCount s.log +
        (if d ≤ ALERT_DISTANCE ∧ s.hasAlerted = false then 1 else 0) := by
  obtain ⟨u, st, it, ha, ta, inf, lg⟩ := s
  by_cases h : d ≤ ALERT_DISTANCE
  · cases ha <;>
      simp [updateDistanceDisplay, alertCount, isAlertSoundEffect, h,
        List.filter_append]
  · simp [updateDistanceDisplay, alertCount, isAlertSoundEffect, h,
      List.filter_append]

/-- While the latch agrees with the zone status of the previous distance,
feeding further distances adds exactly the inward crossings. -/
lemma feedDistances_alertCount_after :
    ∀ (ds : List ℝ) (prev : ℝ) (s : AppState),
      (s.hasAlerted = true ↔ prev ≤ ALERT_DISTANCE) →
      alertCount (feedDistances s ds).log =
        alertCount s.log + specZoneEntriesAfter prev ds := by
  intro ds
  induction ds with
  | nil => intro prev s _h; simp [feedDistances, specZoneEntriesAfter]
  | cons d rest ih =>
    intro prev s h
    have hfeed : feedDistances s (d :: rest) =
        feedDistances (updateDistanceDisplay s d) rest := rfl
    rw [hfeed, ih d _ (updateDistanceDisplay_hasAlerted s d),
      updateDistanceDisplay_alertCount]
    have hb : (d ≤ ALERT_DISTANCE ∧ s.hasAlerted = false) ↔
        (d ≤ ALERT_DISTANCE ∧ ALERT_DISTANCE < prev) := by
      constructor
      · rintro ⟨hd, hf⟩
        refine ⟨hd, ?_⟩
        by_contra hc
        push_neg at hc
        rw [h.mpr hc] at hf
        exact Bool.noConfusion hf
      · rintro ⟨hd, hp⟩
        refine ⟨hd, ?_⟩
        cases hA : s.hasAlerted
        · rfl
        · exact absurd (h.mp hA) (not_le.mpr hp)
    rw [if_congr hb rfl rfl]
    simp only [specZoneEntriesAfter]
    rw [add_assoc]

/-- C1: the alert side effect fires exactly once per entry into the alert
zone. A single update fires iff the distance is within the threshold while
hasAlerted is clear, and leaves hasAlerted latched exactly when inside the
zone (so the latch resets as soon as the distance exceeds the threshold);
over any distance sequence started with a clear latch, the number of alert
side effects equals the number of zone entries; and the concrete
descending-ascending-descending sequence 6, 4, 3, 4, 6, 4 around the 5 km
threshold fires exactly two alerts: one per zone entry, none on the
in-zone plateau. -/
theorem alert_fires_once_per_zone_entry :
    (∀ (s : AppState) (d : ℝ),
        ((updateDistanceDisplay s d).hasAlerted = true ↔ d ≤ ALERT_DISTANCE) ∧
          alertCount (updateDistanceDisplay s d).log =
            alertCount s.log +
              (if d ≤ ALERT_DISTANCE ∧ s.hasAlerted = false then 1 else 0)) ∧
      (∀ (s : AppState) (ds : List ℝ), s.hasAlerted = false →
          alertCount (feedDistances s ds).log =
            alertCount s.log + specZoneEntries ds) ∧
      alertCount (feedDistances initState [6, 4, 3, 4, 6, 4]).log = 2 := by
  have hmain : ∀ (s : AppState) (ds : List ℝ), s.hasAlerted = false →
      alertCount (feedDistances s ds).log =
        alertCount s.log + specZoneEntries ds := by
    intro s ds h
    cases ds with
    | nil => simp [feedDistances, specZoneEntries]
    | cons d rest =>
      have hfeed : feedDistances s (d :: rest) =
          feedDistances (updateDistanceDisplay s d) rest := rfl
      rw [hfeed, feedDistances_alertCount_after rest d _
          (updateDistanceDisplay_hasAlerted s d),
        updateDistanceDisplay_alertCount]
      simp only [specZoneEntries, h, eq_self_iff_true, and_true]
      rw [add_assoc]
  refine ⟨fun s d => ⟨updateDistanceDisplay_hasAlerted s d,
    updateDistanceDisplay_alertCount s d⟩, hmain, ?_⟩
  rw [hmain initState [6, 4, 3, 4, 6, 4] rfl]
  norm_num [alertCount, initState, specZoneEntries, specZoneEntriesAfter,
    ALERT_DISTANCE]

/-- C1 witness: the zone-entry count law applied to the fresh page state and
the empty distance sequence. -/
theorem alert_fires_once_per_zone_entry_witness :
    initState.hasAlerted = false ∧
      alertCount (feedDistances initState []).log =
        alertCount initState.log + specZoneEntries [] :=
  ⟨rfl, alert_fires_once_per_zone_entry.2.1 initState [] rfl⟩

/-! ## Stopping, failed ticks and starting without a station
(claims C2, C4, C5) -/

/-- C2 as the code actually behaves, at the failing input: after
stopTracking the timer is indeed halted (a further tick is a no-op and
isTracking is false), but the geolocation request that was in flight when
the session stopped is still applied when it resolves - the interval
callback of src/script.js lines 549-564 has no isTracking check after its
await - so the late position, here at the station itself, fires the alert
side effect after the stop instead of being discarded. -/
theorem late_resolve_after_stop_fires_alert :
    (step (runEvents trackingState [Event.startTick, Event.stopTracking])
        Event.startTick =
      runEvents trackingState [Event.startTick, Event.stopTracking]) ∧
      (runEvents trackingState
          [Event.startTick, Event.stopTracking]).isTracking = false ∧
      alertCount (runEvents trackingState [Event.startTick, Event.stopTracking,
          Event.resolveSuccess ⟨32.0853, 34.7818, 10⟩]).log = 1 := by
  refine ⟨?_, ?_, ?_⟩
  · simp [runEvents, step, trackingState]
  · simp [runEvents, step, trackingState]
  · norm_num [runEvents, step, trackingState, busStation, updateDistanceDisplay,
      alertCount, isAlertSoundEffect, ALERT_DISTANCE, calculateDistance_self]

/-- C4: starting tracking with no station selected only emits the
user-error status message; apart from that log entry the state is returned
unchanged - isTracking, the timer, the stored position and the latch all
keep their previous values. -/
theorem startTracking_without_station_noop :
    ∀ (s : AppState) (r : Except String GeoPoint), s.selectedStation = none →
      startTracking s r =
          { s with log := s.log ++ [Effect.statusMsg "בחר תחנה תחילה" "error"] } ∧
        (startTracking s r).isTracking = s.isTracking ∧
        (startTracking s r).timerActive = s.timerActive ∧
        (startTracking s r).userLocation = s.userLocation ∧
        (startTracking s r).hasAlerted = s.hasAlerted := by
  intro s r h
  simp [startTracking, h]

/-- C4 witness: the fresh page state has no selected station, and starting
there only logs the user error. -/
theorem startTracking_without_station_noop_witness :
    initState.selectedStation = none ∧
      startTracking initState (Except.error "denied") =
        { initState with
            log := initState.log ++ [Effect.statusMsg "בחר תחנה תחילה" "error"] } :=
  ⟨rfl,
    (startTracking_without_station_noop initState (Except.error "denied") rfl).1⟩

/-- C5: a poll tick whose geolocation request rejects changes nothing: with
no request pending beforehand, any number of consecutive failed ticks
returns the session state - isTracking, hasAlerted, the last good position
and the installed timer - exactly as it was. -/
theorem failed_ticks_leave_state_unchanged :
    ∀ (n : ℕ) (s : AppState), s.inFlight = false →
      runEvents s (failTicks n) = s := by
  intro n
  induction n with
  | zero => intro s _h; rfl
  | succ n ih =>
    intro s h
    obtain ⟨u, st, it, ha, ta, inf, lg⟩ := s
    have hinf : inf = false := h
    subst hinf
    cases ta
    · simp only [failTicks, runEvents, List.foldl_cons]
      simp [step]
      exact ih _ rfl
    · simp only [failTicks, runEvents, List.foldl_cons]
      simp [step]
      exact ih _ rfl

/-- C5 witness: two failed ticks on the concrete active session. -/
theorem failed_ticks_leave_state_unchanged_witness :
    runEvents trackingState (failTicks 2) = trackingState :=
  failed_ticks_leave_state_unchanged 2 trackingState rfl

/-! ## Search de-duplication and soft failure (claims C8, C9) -/

/-- The de-duplication loop only ever appends: every already-kept result is
still kept afterwards. -/
lemma dedupGo_subset : ∀ (rs acc : List SearchResult), acc ⊆ dedupGo acc rs := by
  intro rs
  induction rs with
  | nil => intro acc; simp [dedupGo]
  | cons r rest ih =>
    intro acc
    simp only [dedupGo]
    by_cases h : ∃ e ∈ acc, calculateDistance r.lat r.lon e.lat e.lon < 0.05
    · rw [if_pos h]
      exact ih acc
    · rw [if_neg h]
      exact fun x hx => ih (acc ++ [r]) (List.mem_append_left [r] hx)

/-- The de-duplication loop preserves the invariant that kept results are
pairwise at least 0.05 km apart in both orders. -/
lemma dedupGo_pairwise :
    ∀ (rs acc : List SearchResult),
      acc.Pairwise (fun a b =>
        0.05 ≤ calculateDistance a.lat a.lon b.lat b.lon ∧
          0.05 ≤ calculateDistance b.lat b.lon a.lat a.lon) →
      (dedupGo acc rs).Pairwise (fun a b =>
        0.05 ≤ calculateDistance a.lat a.lon b.lat b.lon ∧
          0.05 ≤ calculateDistance b.lat b.lon a.lat a.lon) := by
  intro rs
  induction rs with
  | nil => intro acc h; simpa [dedupGo] using h
  | cons r rest ih =>
    intro acc h
    simp only [dedupGo]
    by_cases hd : ∃ e ∈ acc, calculateDistance r.lat r.lon e.lat e.lon < 0.05
    · rw [if_pos hd]
      exact ih acc h
    · rw [if_neg hd]
      refine ih (acc ++ [r]) ?_
      rw [List.pairwise_append]
      push_neg at hd
      refine ⟨h, by simp, ?_⟩
      intro a ha b hb
      rw [List.mem_singleton] at hb
      subst hb
      have h1 : 0.05 ≤ calculateDistance b.lat b.lon a.lat a.lon := hd a ha
      exact ⟨by rw [calculateDistance_comm]; exact h1, h1⟩

/-- Every raw result lies within 0.05 km of something the de-duplication
loop keeps: either of the earlier kept result that shadowed it, or of
itself once kept. -/
lemma dedupGo_cover :
    ∀ (rs acc : List SearchResult) (r : SearchResult), r ∈ rs →
      ∃ u ∈ dedupGo acc rs,
        calculateDistance r.lat r.lon u.lat u.lon < 0.05 := by
  intro rs
  induction rs with
  | nil => intro acc r h; exact absurd h (List.not_mem_nil r)
  | cons x rest ih =>
    intro acc r hr
    simp only [dedupGo]
    by_cases hd : ∃ e ∈ acc, calculateDistance x.lat x.lon e.lat e.lon < 0.05
    · rw [if_pos hd]
      rcases List.mem_cons.mp hr with h | h
      · subst h
        obtain ⟨e, he, hlt⟩ := hd
        exact ⟨e, dedupGo_subset rest acc he, hlt⟩
      · exact ih acc r h
    · rw [if_neg hd]
      rcases List.mem_cons.mp hr with h | h
      · subst h
        refine ⟨r, dedupGo_subset rest (acc ++ [r])
          (List.mem_append_right acc (List.mem_singleton.mpr rfl)), ?_⟩
        rw [calculateDistance_self]
        norm_num
      · exact ih (acc ++ [x]) r h

/-- C9: on every list of raw geocoding results, the de-duplication step of
the station search keeps a list in which every two distinct entries are at
least 0.05 km apart by the great-circle distance function (in both orders),
and every raw result lies within 0.05 km of some kept entry. -/
theorem dedup_far_apart_and_covering :
    ∀ rs : List SearchResult,
      ((dedupResults rs).Pairwise (fun a b =>
          0.05 ≤ calculateDistance a.lat a.lon b.lat b.lon ∧
            0.05 ≤ calculateDistance b.lat b.lon a.lat a.lon)) ∧
        ∀ r ∈ rs, ∃ u ∈ dedupResults rs,
          calculateDistance r.lat r.lon u.lat u.lon < 0.05 := by
  intro rs
  exact ⟨dedupGo_pairwise rs [] List.Pairwise.nil,
    fun r hr => dedupGo_cover rs [] r hr⟩

/-- C9 witness: the covering half applied to a concrete one-result list. -/
theorem dedup_far_apart_and_covering_witness :
    ∃ u ∈ dedupResults [sampleResult],
      calculateDistance sampleResult.lat sampleResult.lon u.lat u.lon < 0.05 :=
  (dedup_far_apart_and_covering [sampleResult]).2 sampleResult (by simp)

/-- Fetch outcomes that all failed or found nothing accumulate to the empty
result list. -/
lemma collectResults_eq_nil :
    ∀ fetches : List (Option (List SearchResult)),
      (∀ f ∈ fetches, f = none ∨ f = some []) → collectResults fetches = [] := by
  intro fetches
  induction fetches with
  | nil => intro _h; rfl
  | cons f rest ih =>
    intro h
    have hrest : ∀ g ∈ rest, g = none ∨ g = some [] :=
      fun g hg => h g (List.mem_cons_of_mem f hg)
    rcases h f (List.mem_cons_self f rest) with hf | hf
    · subst hf
      simp only [collectResults]
      exact ih hrest
    · subst hf
      simp only [collectResults, List.nil_append]
      exact ih hrest

/-- C8: the station search never fails fatally. A subquery whose fetch hit
a transport error contributes nothing - dropping it leaves the outcome
unchanged - and when every fetch failed or found nothing the search returns
the empty list, not an error, together with the searching info message and
a soft warning-severity status. -/
theorem search_never_fatal :
    (∀ fetches, searchBusStation (none :: fetches) = searchBusStation fetches) ∧
      ∀ fetches : List (Option (List SearchResult)),
        (∀ f ∈ fetches, f = none ∨ f = some []) →
        searchBusStation fetches =
          ([], [Effect.statusMsg "מחפש תחנות..." "info",
                Effect.statusMsg
                  "לא נמצאו תחנות. נסה שם אחר או הוסף \"תחנה\" לחיפוש"
                  "warning"]) := by
  constructor
  · intro fetches
    rfl
  · intro fetches h
    have hc : collectResults fetches = [] := collectResults_eq_nil fetches h
    simp [searchBusStation, hc, dedupResults, dedupGo]

/-- C8 witness: a single subquery whose fetch failed yields the empty list
and the soft warning. -/
theorem search_never_fatal_witness :
    searchBusStation [none] =
      ([], [Effect.statusMsg "מחפש תחנות..." "info",
            Effect.statusMsg
              "לא נמצאו תחנות. נסה שם אחר או הוסף \"תחנה\" לחיפוש"
              "warning"]) :=
  search_never_fatal.2 [none] (by simp)
